import Mathlib

/-!
Verification of the action-admission and content-validation engine of the
X automation repository.  Definitions are shallow embeddings of the Python
source: `src/xinfluencer_os/agents/quality_safety.py`, `src/monitor.py`,
`src/xinfluencer_os/db.py`, `src/xinfluencer_os/agents/browser_operator.py`
and `src/xinfluencer_os/main.py`.  Wall-clock instants are modelled as
seconds (`Int`), calendar days and clock hours as `Nat`, and calls to
Python's `random` module as explicit seed / oracle parameters.
-/

/-!
String primitives.  The core `String` functions are re-implemented over
the underlying character list so that every definition evaluates by kernel
reduction; each mirrors the Python string method named in its comment.
-/

/-- Python `str.lower()` (adequate for the ASCII texts handled here). -/
def lowerStr (s : String) : String :=
  ⟨s.toList.map Char.toLower⟩

/-- Python `c in s` for a single character. -/
def hasChar (s : String) (c : Char) : Bool :=
  s.toList.contains c

/-- Python `s.startswith(pre)`. -/
def pyStartsWith (s pre : String) : Bool :=
  pre.toList.isPrefixOf s.toList

/-- Python `s.endswith(suf)`. -/
def pyEndsWith (s suf : String) : Bool :=
  suf.toList.reverse.isPrefixOf s.toList.reverse

/-- Python `s[:n]`. -/
def pyTake (s : String) (n : Nat) : String :=
  ⟨s.toList.take n⟩

/-- Python `s[-n:]` (for `0 < n ≤ len(s)`; shorter strings are returned
whole, as in Python). -/
def pyTakeRight (s : String) (n : Nat) : String :=
  ⟨(s.toList.reverse.take n).reverse⟩

/-- Python `s.rstrip()`. -/
def pyRStrip (s : String) : String :=
  ⟨(s.toList.reverse.dropWhile Char.isWhitespace).reverse⟩

/-- Python `s.strip()`. -/
def pyStrip (s : String) : String :=
  ⟨((s.toList.dropWhile Char.isWhitespace).reverse.dropWhile Char.isWhitespace).reverse⟩

/-- Python `len(s)` (counts code points, as `String.length` does). -/
def pyLength (s : String) : Nat :=
  s.toList.length

/-- Occurrence of one character list as a contiguous run inside another. -/
def listContains (needle : List Char) : List Char → Bool
  | [] => needle.isEmpty
  | c :: rest => needle.isPrefixOf (c :: rest) || listContains needle rest

/-- Python `needle in haystack` substring test on strings. -/
def containsSubstr (needle haystack : String) : Bool :=
  listContains needle.toList haystack.toList

/-- Python `random.randint lo hi` (both endpoints included), with the
randomness supplied as an explicit seed. -/
def randint (lo hi seed : Nat) : Nat :=
  lo + seed % (hi + 1 - lo)

/-- An apostrophe character, used inside several banned-phrase literals. -/
def apoChar : Char := Char.ofNat 39

/-- A one-character string holding an apostrophe. -/
def apoStr : String := String.singleton apoChar

theorem randint_mem (lo hi seed : Nat) (h : lo ≤ hi) :
    lo ≤ randint lo hi seed ∧ randint lo hi seed ≤ hi := by
  unfold randint
  have hpos : 0 < hi + 1 - lo := by omega
  have := Nat.mod_lt seed hpos
  omega

namespace QS

/-! Embedding of `src/xinfluencer_os/agents/quality_safety.py`. -/

/-- `BANNED_PHRASES` from quality_safety.py. -/
def BANNED_PHRASES : List String :=
  ["as an ai", "certainly", "in conclusion", "i can help",
   "interesting tweet", "great point", "this is huge",
   "delve", "crucial", "it" ++ apoStr ++ "s important to", "firstly",
   "absolutely", "definitely", "game changer", "paradigm shift",
   "let me explain", "here" ++ apoStr ++ "s why", "here" ++ apoStr ++ "s the thing"]

/-- `BANNED_EMOJIS` from quality_safety.py.  The source file stores these
literals in a double-encoded (mojibake) form; the exact characters present
in the file are reproduced here. -/
def BANNED_EMOJIS : List String :=
  ["ðŸš€", "ðŸ“ˆ",
   "ðŸ’Ž", "ðŸ”¥",
   "ðŸ§µ", "ðŸ‘‡",
   "ðŸ¤–", "ðŸ§ ",
   "ðŸ˜…", "ðŸ™",
   "ðŸ‘€", "ðŸ’¯",
   "ðŸŽ¯", "âš¡",
   "ðŸŒ™", "ðŸ“Š"]

/-- `GENERIC_STARTERS` from quality_safety.py. -/
def GENERIC_STARTERS : List String :=
  ["great", "amazing", "love this", "so true", "facts",
   "couldn" ++ apoStr ++ "t agree more", "exactly", "100%", "this is the way"]

/-- The literal the em-dash check compares against (also mojibake in the
source: three characters, not an actual em-dash). -/
def EM_DASH : String := "â€”"

/-- Rejection reasons of `validate_content`; each constructor corresponds to
one `return False, ...` site of the Python function. -/
inductive Reason where
  | ok
  | empty
  | tooLong (n m : Nat)
  | hashtag
  | endsWithQuestion
  | bannedPhrase (p : String)
  | bannedEmoji (e : String)
  | genericStarter (s : String)
  | emDash
  | duplicate
  | similarStart
deriving DecidableEq

/-- The kind-specific maximum length of `validate_content`:
`280 if content_type in ["tweet", "quote"] else 240`. -/
def maxLengthFor (content_type : String) : Nat :=
  if content_type = "tweet" ∨ content_type = "quote" then 280 else 240

/-- The final loop of `validate_content`: for each past reply, first the
exact (lowercased) duplicate test, then the shared-first-20-characters test
guarded by `len(text_lower) > 20`. -/
def similarCheck (text_lower : String) : List String → Option Reason
  | [] => none
  | past :: rest =>
    if text_lower = lowerStr past then some .duplicate
    else if pyLength text_lower > 20 ∧ pyTake text_lower 20 = pyTake (lowerStr past) 20 then
      some .similarStart
    else similarCheck text_lower rest

/-- `text.lower().strip()`, the `text_lower` of `validate_content`. -/
def lowerTrim (text : String) : String :=
  pyStrip (lowerStr text)

/-- Checks 1-8 of `validate_content` (everything before the similarity
loop), returning the first violated reason in the order of the source:
empty, length, hashtag, reply-only question mark, banned phrase, banned
emoji, generic starter, em-dash. -/
def preChecks (text : String) (content_type : String) : Option Reason :=
  if text = "" then some .empty
  else if pyLength text > maxLengthFor content_type then
    some (.tooLong (pyLength text) (maxLengthFor content_type))
  else if hasChar text '#' then some .hashtag
  else if content_type = "reply" ∧ pyEndsWith (pyRStrip text) "?" = true then
    some .endsWithQuestion
  else
    match BANNED_PHRASES.find? (fun p => containsSubstr p (lowerTrim text)) with
    | some p => some (.bannedPhrase p)
    | none =>
      match BANNED_EMOJIS.find? (fun e => containsSubstr e text) with
      | some e => some (.bannedEmoji e)
      | none =>
        match GENERIC_STARTERS.find? (fun s => pyStartsWith (lowerTrim text) s) with
        | some s => some (.genericStarter s)
        | none =>
          if containsSubstr EM_DASH text then some .emDash else none

/-- `validate_content(text, content_type)` from quality_safety.py, with the
module-level `_recent_replies` deque passed explicitly as `recent`
(iterated oldest first, as the deque is): the straight-line checks, then
the similarity loop over the recent replies. -/
def validate_content (text : String) (content_type : String) (recent : List String) :
    Bool × Reason :=
  match preChecks text content_type with
  | some r => (false, r)
  | none =>
    match similarCheck (lowerTrim text) recent with
    | some r => (false, r)
    | none => (true, .ok)

/-- A row of the `replied_accounts` table: `(username, last_replied)`, the
timestamp in seconds.  `username` is unique, so a store is a list with at
most one row per username and `first()` is `find?`. -/
def lookupAccount (accounts : List (String × Int)) (u : String) : Option Int :=
  (accounts.find? (fun r => r.1 = u)).map (fun r => r.2)

/-- Reasons returned by `can_reply_to_account`. -/
inductive CooldownReason where
  | noUsername
  | ok
  | repliedAgo (secondsAgo : Int)
deriving DecidableEq

/-- `can_reply_to_account(username)` from quality_safety.py; `now` stands for
`datetime.utcnow()` and the cutoff is `now - timedelta(hours=24)`. -/
def can_reply_to_account (accounts : List (String × Int)) (username : String)
    (now : Int) : Bool × CooldownReason :=
  if username = "" then (true, .noUsername)
  else
    match lookupAccount accounts username with
    | some last =>
      if last > now - 24 * 3600 then (false, .repliedAgo (now - last))
      else (true, .ok)
    | none => (true, .ok)

/-- A `daily_stats` row from src/xinfluencer_os/db.py, one per calendar day
(`date` is a day number; the column is unique). -/
structure DailyStats where
  date : Nat
  replies_count : Nat
  likes_count : Nat
  retweets_count : Nat
  posts_count : Nat
  threads_count : Nat
  quote_tweets_count : Nat
deriving DecidableEq

/-- The record `DailyStats(date=today)` inserts with all-default counters. -/
def freshStats (today : Nat) : DailyStats :=
  ⟨today, 0, 0, 0, 0, 0, 0⟩

/-- `get_today_stats(db)` from db.py: fetch today's row, creating it with
zero counters when absent.  Returns the row read together with the store
after the possible lazy insert. -/
def get_today_stats (db : List DailyStats) (today : Nat) :
    DailyStats × List DailyStats :=
  match db.find? (fun s => s.date = today) with
  | some s => (s, db)
  | none => (freshStats today, db ++ [freshStats today])

/-- The per-day caps of `Settings` in src/xinfluencer_os/config.py. -/
structure LimitsConfig where
  max_replies_per_day : Nat
  max_likes_per_day : Nat
  max_retweets_per_day : Nat
  max_posts_per_day : Nat
deriving DecidableEq

/-- Reasons returned by `check_daily_limits`. -/
inductive LimitReason where
  | unknownActionType
  | dailyLimitReached (current limit : Nat)
  | okCount (current limit : Nat)
deriving DecidableEq

/-- The `limits` dictionary of `check_daily_limits`: the (count, cap) pair
consulted for an action type, `none` for a type outside the dictionary. -/
def limitsEntry (stats : DailyStats) (action_type : String) (cfg : LimitsConfig) :
    Option (Nat × Nat) :=
  if action_type = "reply" then some (stats.replies_count, cfg.max_replies_per_day)
  else if action_type = "like" then some (stats.likes_count, cfg.max_likes_per_day)
  else if action_type = "retweet" then some (stats.retweets_count, cfg.max_retweets_per_day)
  else if action_type = "post" then some (stats.posts_count, cfg.max_posts_per_day)
  else none

/-- `check_daily_limits(action_type)` from quality_safety.py. -/
def check_daily_limits (db : List DailyStats) (today : Nat) (action_type : String)
    (cfg : LimitsConfig) : Bool × LimitReason :=
  match limitsEntry (get_today_stats db today).1 action_type cfg with
  | none => (true, .unknownActionType)
  | some (current, limit) =>
    if current ≥ limit then (false, .dailyLimitReached current limit)
    else (true, .okCount current limit)

end QS

namespace BrowserOp

/-! Embedding of `src/xinfluencer_os/agents/browser_operator.py`. -/

/-- The per-day counter update inside `_log_action`: on success the counter
matching the action type is incremented, any other type leaves every counter
unchanged. -/
def log_action_stats_update (stats : QS.DailyStats) (action_type : String)
    (success : Bool) : QS.DailyStats :=
  if success then
    if action_type = "reply" then
      { stats with replies_count := stats.replies_count + 1 }
    else if action_type = "like" then
      { stats with likes_count := stats.likes_count + 1 }
    else if action_type = "retweet" then
      { stats with retweets_count := stats.retweets_count + 1 }
    else if action_type = "post" then
      { stats with posts_count := stats.posts_count + 1 }
    else if action_type = "thread" then
      { stats with threads_count := stats.threads_count + 1 }
    else if action_type = "quote" then
      { stats with quote_tweets_count := stats.quote_tweets_count + 1 }
    else stats
  else stats

/-- The session-pacing ranges of `Settings` shared by the browser operator
and the monitor: session length and break length, both in the source drawn
with `random.randint`. -/
structure SessionConfig where
  session_min : Nat
  session_max : Nat
  break_min : Nat
  break_max : Nat
deriving DecidableEq

/-- Process-local session counters (`session_actions` / `session_target` in
browser_operator.py, `session_replies` / `session_target` in monitor.py). -/
structure SessionState where
  session_replies : Nat
  session_target : Nat
deriving DecidableEq

/-- `check_session_break` from browser_operator.py: when the session counter
has reached the target, sleep `randint(break_min, break_max)` minutes, then
zero the counter and draw a fresh target with
`randint(session_min, session_max)`.  Returns `some minutes` when a break
was taken, paired with the session state afterwards. -/
def check_session_break (cfg : SessionConfig) (sess : SessionState)
    (breakSeed targetSeed : Nat) : Option Nat × SessionState :=
  if sess.session_replies ≥ sess.session_target then
    (some (randint cfg.break_min cfg.break_max breakSeed),
     ⟨0, randint cfg.session_min cfg.session_max targetSeed⟩)
  else (none, sess)

end BrowserOp

namespace Monitor

/-! Embedding of `src/monitor.py` (the GhostReply variant). -/

/-- `RELEVANT_KEYWORDS` from monitor.py. -/
def RELEVANT_KEYWORDS : List String :=
  ["web3", "crypto", "trading", "ai", "bitcoin", "solana", "eth",
   "ethereum", "blockchain", "defi", "nft", "token", "market",
   "pump", "dump", "alpha", "gem", "bull", "bear", "analysis"]

/-- `_is_relevant`: any keyword occurs in the lowercased text. -/
def is_relevant (text : String) : Bool :=
  RELEVANT_KEYWORDS.any (fun k => containsSubstr k (lowerStr text))

/-- The `forbidden` phrase list inside `_validate_reply`. -/
def forbiddenPhrases : List String :=
  ["as an ai", "certainly", "in conclusion", "i can help",
   "interesting tweet", "great point", "this is huge",
   "delve", "crucial"]

/-- The `common_emojis` list inside `_validate_reply` (genuine emoji in this
file, written here by code point). -/
def common_emojis : List String :=
  [String.singleton (Char.ofNat 0x1F680), String.singleton (Char.ofNat 0x1F4C8),
   String.singleton (Char.ofNat 0x1F48E), String.singleton (Char.ofNat 0x1F525),
   String.singleton (Char.ofNat 0x1F9F5), String.singleton (Char.ofNat 0x1F447),
   String.singleton (Char.ofNat 0x1F916), String.singleton (Char.ofNat 0x1F9E0),
   String.singleton (Char.ofNat 0x1F605), String.singleton (Char.ofNat 0x1F64F),
   String.singleton (Char.ofNat 0x1F440)]

/-- Rejection reasons of `_validate_reply`, one per `return False` site. -/
inductive VReason where
  | ok
  | empty
  | tooLong
  | hashtag
  | question
  | aiPhrase
  | emoji
  | duplicate
  | similarStart
deriving DecidableEq

/-- The similarity loop of `_validate_reply`: per past reply, the exact
lowercased-duplicate test, then
`text.lower().startswith(past_reply.lower()[:20])`. -/
def similarCheckM (text : String) : List String → Option VReason
  | [] => none
  | past :: rest =>
    if lowerStr text = lowerStr past then some .duplicate
    else if pyStartsWith (lowerStr text) (pyTake (lowerStr past) 20) then some .similarStart
    else similarCheckM text rest

/-- `_validate_reply(text)` from monitor.py, with the in-memory
`reply_history` deque passed explicitly. -/
def validate_reply (text : String) (history : List String) : Bool × VReason :=
  if text = "" then (false, .empty)
  else if pyLength text > 240 then (false, .tooLong)
  else if hasChar text '#' then (false, .hashtag)
  else if hasChar (pyTakeRight text 5) '?' then (false, .question)
  else if forbiddenPhrases.any (fun p => containsSubstr p (lowerStr text)) then
    (false, .aiPhrase)
  else if common_emojis.any (fun e => containsSubstr e text) then
    (false, .emoji)
  else
    match similarCheckM text history with
    | some r => (false, r)
    | none => (true, .ok)

/-- `_should_skip_account(db, username)` from monitor.py: true when a
`replied_accounts` row exists whose `last_replied` is after
`utcnow() - 24h`. -/
def should_skip_account (accounts : List (String × Int)) (username : String)
    (now : Int) : Bool :=
  if username = "" then false
  else
    match QS.lookupAccount accounts username with
    | some last => decide (last > now - 24 * 3600)
    | none => false

/-- A candidate item as returned by discovery (`get_feed_tweets`). -/
structure TweetC where
  id : String
  url : String
  text : String
  author : String
  handle : String
  followers : Nat
  likes : Nat
  retweets : Nat
deriving DecidableEq

/-- A stored `tweets` row of src/database.py. -/
structure StoredTweet where
  id : String
  url : String
  text : String
  author : String
  author_handle : String
  followers : Nat
  likes : Nat
  retweets : Nat
deriving DecidableEq

/-- A stored `replies` row of src/database.py. -/
structure StoredReply where
  tweet_id : String
  tweet_url : String
  reply_text : String
  status : String
deriving DecidableEq

/-- The tables of the GhostReply store touched by the monitor. -/
structure MonitorDb where
  tweets : List StoredTweet
  replies : List StoredReply
  accounts : List (String × Int)
deriving DecidableEq

/-- The tweet row `process_tweet` inserts for a candidate. -/
def storedOf (t : TweetC) : StoredTweet :=
  ⟨t.id, t.url, t.text, t.author, t.handle, t.followers, t.likes, t.retweets⟩

/-- The generation-and-validation retry loop of `process_tweet` (two
attempts; a generation error aborts, an invalid text retries).  Each
element of `gens` is what one `generate_reply_sync` call returned. -/
def try_generate : Nat → List (Except String String) → List String → Option String
  | 0, _, _ => none
  | _ + 1, [], _ => none
  | _ + 1, .error _ :: _, _ => none
  | n + 1, .ok raw :: rest, history =>
    if (validate_reply raw history).1 then some raw else try_generate n rest history

/-- `process_tweet(tweet, db)` from monitor.py: relevance filter, seen-id
check, 24h account cooldown, random skip, tweet insert, generation with one
retry, reply-draft insert.  `skipRand` is the outcome of the
`random.random() < random.uniform(0.20, 0.35)` draw and `gens` the
generation oracle. -/
def process_tweet (t : TweetC) (db : MonitorDb) (now : Int) (skipRand : Bool)
    (gens : List (Except String String)) (history : List String) :
    Option StoredReply × MonitorDb :=
  if ¬ is_relevant t.text then (none, db)
  else if db.tweets.any (fun s => s.id = t.id) then (none, db)
  else if should_skip_account db.accounts t.handle now then (none, db)
  else if skipRand then (none, db)
  else
    let db1 := { db with tweets := db.tweets ++ [storedOf t] }
    match try_generate 2 gens history with
    | none => (none, db1)
    | some txt =>
      let r : StoredReply := ⟨t.id, t.url, txt, "pending"⟩
      (some r, { db1 with replies := db1.replies ++ [r] })

end Monitor

namespace Orchestrator

/-! Embedding of the pacing pieces of `src/xinfluencer_os/main.py`. -/

end Orchestrator

namespace Concurrency

/-!
Two processes sharing the durable store, each recording one reply.

`_log_action` in browser_operator.py performs
`stats = get_today_stats(db)` (a read) and then
`stats.replies_count += 1; db.commit()` (a write of the value computed in
application code); `record_account_reply` in quality_safety.py likewise
queries the row and then writes.  Each process is therefore split into a
read step and a write step on the shared counter.
-/

/-- The shared counter cell plus each process's value loaded by its read. -/
structure RaceState where
  store : Nat
  loc1 : Option Nat
  loc2 : Option Nat
deriving DecidableEq

/-- One step of either process: the read (`get_today_stats`) or the write
(`commit` of the incremented value computed from the loaded row). -/
inductive RStep where
  | read1
  | write1
  | read2
  | write2
deriving DecidableEq

/-- Effect of one step on the shared store. -/
def rstep : RaceState → RStep → RaceState
  | s, .read1 => { s with loc1 := some s.store }
  | s, .write1 =>
    match s.loc1 with
    | some v => { s with store := v + 1 }
    | none => s
  | s, .read2 => { s with loc2 := some s.store }
  | s, .write2 =>
    match s.loc2 with
    | some v => { s with store := v + 1 }
    | none => s

/-- Run an interleaving of the two processes. -/
def runSchedule (init : RaceState) (sched : List RStep) : RaceState :=
  sched.foldl rstep init

/-- The storage-layer single-row update the claim describes: the increment
happens atomically in one step. -/
def atomic_increment (store : Nat) : Nat :=
  store + 1

end Concurrency

/-! Helper lemmas. -/

theorem similarCheck_reasons (tl : String) (l : List String) (r : QS.Reason)
    (h : QS.similarCheck tl l = some r) : r = .duplicate ∨ r = .similarStart := by
  induction l with
  | nil => simp [QS.similarCheck] at h
  | cons p rest ih =>
    simp only [QS.similarCheck] at h
    split at h
    · exact Or.inl (Option.some.inj h).symm
    · split at h
      · exact Or.inr (Option.some.inj h).symm
      · exact ih h

theorem validate_content_snd_question (text ctype : String) (recent : List String)
    (h : (QS.validate_content text ctype recent).2 = .endsWithQuestion) :
    QS.preChecks text ctype = some .endsWithQuestion := by
  unfold QS.validate_content at h
  cases hpc : QS.preChecks text ctype with
  | some r =>
    rw [hpc] at h
    simp at h
    rw [h]
  | none =>
    rw [hpc] at h
    cases hsc : QS.similarCheck (QS.lowerTrim text) recent with
    | some r =>
      rw [hsc] at h
      simp at h
      rcases similarCheck_reasons _ _ _ hsc with h2 | h2 <;> rw [h2] at h <;> cases h
    | none =>
      rw [hsc] at h
      cases h

theorem preChecks_question_inv (text ctype : String)
    (h : QS.preChecks text ctype = some .endsWithQuestion) :
    ctype = "reply" ∧ pyEndsWith (pyRStrip text) "?" = true := by
  unfold QS.preChecks at h
  split at h
  · cases h
  · split at h
    · cases h
    · split at h
      · cases h
      · split at h
        · assumption
        · split at h
          · cases h
          · split at h
            · cases h
            · split at h
              · cases h
              · split at h
                · cases h
                · cases h

theorem preChecks_question (text : String) (h1 : text ≠ "")
    (h2 : pyLength text ≤ 240) (h3 : hasChar text '#' = false)
    (h4 : pyEndsWith (pyRStrip text) "?" = true) :
    QS.preChecks text "reply" = some .endsWithQuestion := by
  have hm : QS.maxLengthFor "reply" = 240 := by decide
  unfold QS.preChecks
  rw [if_neg h1, if_neg (by rw [hm]; omega), if_neg (by simp [h3]),
    if_pos ⟨rfl, h4⟩]

theorem similarCheckM_reasons (text : String) (l : List String) (r : Monitor.VReason)
    (h : Monitor.similarCheckM text l = some r) : r = .duplicate ∨ r = .similarStart := by
  induction l with
  | nil => simp [Monitor.similarCheckM] at h
  | cons p rest ih =>
    simp only [Monitor.similarCheckM] at h
    split at h
    · exact Or.inl (Option.some.inj h).symm
    · split at h
      · exact Or.inr (Option.some.inj h).symm
      · exact ih h

theorem mvalidate_question_iff (text : String) (history : List String)
    (h1 : text ≠ "") (h2 : pyLength text ≤ 240) (h3 : hasChar text '#' = false) :
    ((Monitor.validate_reply text history).2 = .question ↔
      hasChar (pyTakeRight text 5) '?' = true) := by
  unfold Monitor.validate_reply
  rw [if_neg h1, if_neg (by omega : ¬ pyLength text > 240), if_neg (by simp [h3])]
  by_cases hq : hasChar (pyTakeRight text 5) '?' = true
  · rw [if_pos hq]
    simp [hq]
  · rw [if_neg hq]
    simp only [hq, iff_false]
    split
    · simp
    · split
      · simp
      · split
        · rename_i r hr
          rcases similarCheckM_reasons _ _ _ hr with h5 | h5 <;> rw [h5] <;> simp
        · simp

/-! Claim theorems. -/

/-- C2, counterexample: the monitor validator rejects the reply
"really? y" with its question reason although the text does not end with a
question mark (ignoring trailing whitespace) — its rule fires on a question
mark anywhere in the last five characters — while the quality_safety
validator accepts the same text, so the question-mark rule does not reject
exactly the texts ending with a question mark. -/
theorem claim_C2_counterexample :
    Monitor.validate_reply "really? y" [] = (false, .question) ∧
    pyEndsWith (pyRStrip "really? y") "?" = false ∧
    QS.validate_content "really? y" "reply" [] = (true, .ok) := by
  refine ⟨by decide, by decide, by decide⟩

/-- C2, amended: in the quality_safety validator the question-mark check
applies only to reply kind and fires exactly on texts ending with a
question mark after trailing whitespace (texts that the earlier nonempty,
length and hashtag checks let through); the monitor variant instead
rejects, with its question reason, exactly the reply texts with a question
mark among their last five characters. -/
theorem claim_C2_amended :
    (∀ text ctype recent, ctype ≠ "reply" →
       (QS.validate_content text ctype recent).2 ≠ .endsWithQuestion) ∧
    (∀ text recent, pyEndsWith (pyRStrip text) "?" = false →
       (QS.validate_content text "reply" recent).2 ≠ .endsWithQuestion) ∧
    (∀ text recent, text ≠ "" → pyLength text ≤ 240 → hasChar text '#' = false →
       pyEndsWith (pyRStrip text) "?" = true →
       QS.validate_content text "reply" recent = (false, .endsWithQuestion)) ∧
    (∀ text history, text ≠ "" → pyLength text ≤ 240 → hasChar text '#' = false →
       ((Monitor.validate_reply text history).2 = .question ↔
         hasChar (pyTakeRight text 5) '?' = true)) := by
  refine ⟨?_, ?_, ?_, ?_⟩
  · intro text ctype recent hne h
    exact hne (preChecks_question_inv _ _ (validate_content_snd_question _ _ _ h)).1
  · intro text recent hends h
    have := (preChecks_question_inv _ _ (validate_content_snd_question _ _ _ h)).2
    rw [hends] at this
    cases this
  · intro text recent h1 h2 h3 h4
    unfold QS.validate_content
    rw [preChecks_question text h1 h2 h3 h4]
  · intro text history h1 h2 h3
    exact mvalidate_question_iff text history h1 h2 h3

/-- C2, witness: the amended statement applied at concrete inputs. -/
theorem claim_C2_amended_witness :
    QS.validate_content "why so" "tweet" [] = (true, .ok) ∧
    QS.validate_content "is it so?" "reply" [] = (false, .endsWithQuestion) := by
  refine ⟨by decide, ?_⟩
  exact claim_C2_amended.2.2.1 "is it so?" [] (by decide) (by decide) (by decide) (by decide)

theorem validate_content_nil_ok (text ctype : String)
    (h : QS.validate_content text ctype [] = (true, .ok)) :
    QS.preChecks text ctype = none := by
  unfold QS.validate_content at h
  cases hpc : QS.preChecks text ctype with
  | some r =>
    rw [hpc] at h
    cases h
  | none => rfl

theorem validate_content_of_preChecks_none (text ctype : String) (recent : List String)
    (h : QS.preChecks text ctype = none) :
    QS.validate_content text ctype recent =
      match QS.similarCheck (QS.lowerTrim text) recent with
      | some r => (false, r)
      | none => (true, .ok) := by
  unfold QS.validate_content
  rw [h]

theorem similarCheck_fires (tl : String) (recent : List String)
    (hnodup : ∀ p ∈ recent, tl ≠ lowerStr p) (hlen : 20 < pyLength tl)
    (hmatch : ∃ p ∈ recent, pyTake tl 20 = pyTake (lowerStr p) 20) :
    QS.similarCheck tl recent = some .similarStart := by
  induction recent with
  | nil => simp at hmatch
  | cons p rest ih =>
    simp only [QS.similarCheck]
    rw [if_neg (hnodup p (List.mem_cons_self p rest))]
    by_cases hc : pyTake tl 20 = pyTake (lowerStr p) 20
    · rw [if_pos ⟨hlen, hc⟩]
    · rw [if_neg (fun hand => hc hand.2)]
      apply ih
      · intro q hq
        exact hnodup q (List.mem_cons_of_mem p hq)
      · rcases hmatch with ⟨q, hq, hqe⟩
        rcases List.mem_cons.mp hq with rfl | hq2
        · exact absurd hqe hc
        · exact ⟨q, hq2, hqe⟩

/-- C3, counterexample: the candidate "abcdefghijklmnopqrst" (exactly 20
characters) shares its lowercase first 20 characters with the history entry
"abcdefghijklmnopqrstuvw", yet validation accepts it, because the
similar-start test additionally requires the candidate's stripped lowercase
length to exceed 20. -/
theorem claim_C3_counterexample :
    pyTake (lowerStr "abcdefghijklmnopqrst") 20 =
      pyTake (lowerStr "abcdefghijklmnopqrstuvw") 20 ∧
    QS.validate_content "abcdefghijklmnopqrst" "reply"
      ["abcdefghijklmnopqrstuvw"] = (true, .ok) := by
  refine ⟨by decide, by decide⟩

theorem pyStartsWith_pyTake (s : String) (n : Nat) :
    pyStartsWith s (pyTake s n) = true := by
  unfold pyStartsWith pyTake
  rw [List.isPrefixOf_iff_prefix]
  exact List.take_prefix n s.toList

theorem preChecks_ne_similarStart (text ctype : String)
    (h : QS.preChecks text ctype = some .similarStart) : False := by
  unfold QS.preChecks at h
  split at h
  · cases h
  · split at h
    · cases h
    · split at h
      · cases h
      · split at h
        · cases h
        · split at h
          · cases h
          · split at h
            · cases h
            · split at h
              · cases h
              · split at h
                · cases h
                · cases h

theorem validate_content_snd_similarStart (text ctype : String) (recent : List String)
    (h : (QS.validate_content text ctype recent).2 = .similarStart) :
    QS.similarCheck (QS.lowerTrim text) recent = some .similarStart := by
  unfold QS.validate_content at h
  cases hpc : QS.preChecks text ctype with
  | some r =>
    rw [hpc] at h
    simp at h
    rw [h] at hpc
    exact absurd (preChecks_ne_similarStart text ctype hpc) not_false
  | none =>
    rw [hpc] at h
    cases hsc : QS.similarCheck (QS.lowerTrim text) recent with
    | some r =>
      rw [hsc] at h
      simp at h
      rw [h]
    | none =>
      rw [hsc] at h
      cases h

theorem similarCheck_similarStart_len (tl : String) (recent : List String)
    (h : QS.similarCheck tl recent = some .similarStart) : 20 < pyLength tl := by
  induction recent with
  | nil => simp [QS.similarCheck] at h
  | cons p rest ih =>
    simp only [QS.similarCheck] at h
    split at h
    · cases h
    · split at h
      · rename_i hcond
        exact hcond.1
      · exact ih h

theorem mvalidate_of_nil_ok (text : String) (history : List String)
    (h : Monitor.validate_reply text [] = (true, .ok)) :
    Monitor.validate_reply text history =
      match Monitor.similarCheckM text history with
      | some r => (false, r)
      | none => (true, .ok) := by
  unfold Monitor.validate_reply at h ⊢
  by_cases h1 : text = ""
  · rw [if_pos h1] at h
    cases h
  · rw [if_neg h1] at h ⊢
    by_cases h2 : pyLength text > 240
    · rw [if_pos h2] at h
      cases h
    · rw [if_neg h2] at h ⊢
      by_cases h3 : hasChar text '#' = true
      · rw [if_pos h3] at h
        cases h
      · rw [if_neg h3] at h ⊢
        by_cases h4 : hasChar (pyTakeRight text 5) '?' = true
        · rw [if_pos h4] at h
          cases h
        · rw [if_neg h4] at h ⊢
          by_cases h5 : (Monitor.forbiddenPhrases.any
              (fun p => containsSubstr p (lowerStr text))) = true
          · rw [if_pos h5] at h
            cases h
          · rw [if_neg h5] at h ⊢
            by_cases h6 : (Monitor.common_emojis.any
                (fun e => containsSubstr e text)) = true
            · rw [if_pos h6] at h
              cases h
            · rw [if_neg h6]

theorem similarCheckM_fires (text : String) (history : List String)
    (hnodup : ∀ p ∈ history, lowerStr text ≠ lowerStr p)
    (hmatch : ∃ p ∈ history, pyTake (lowerStr text) 20 = pyTake (lowerStr p) 20) :
    Monitor.similarCheckM text history = some .similarStart := by
  induction history with
  | nil => simp at hmatch
  | cons p rest ih =>
    simp only [Monitor.similarCheckM]
    rw [if_neg (hnodup p (List.mem_cons_self p rest))]
    by_cases hstart : pyStartsWith (lowerStr text) (pyTake (lowerStr p) 20) = true
    · rw [if_pos hstart]
    · rw [if_neg hstart]
      apply ih
      · intro q hq
        exact hnodup q (List.mem_cons_of_mem p hq)
      · rcases hmatch with ⟨q, hq, hqe⟩
        rcases List.mem_cons.mp hq with rfl | hq2
        · exact absurd (hqe ▸ pyStartsWith_pyTake (lowerStr text) 20) hstart
        · exact ⟨q, hq2, hqe⟩

/-- C3, amended: given that no earlier check in the fixed order already
rejected the text and that no window entry is an exact case-insensitive
duplicate of the candidate — in the quality_safety validator, a candidate
whose stripped lowercase text is strictly longer than 20 characters and
shares its lowercase first 20 characters with some recent-history entry is
rejected with the similar-start reason, regardless of how the remainders
differ, while a candidate whose stripped lowercase length is at most 20 is
never rejected with the similar-start reason by that validator; in the
monitor validator, a candidate whose lowercase first 20 characters equal
an entry's lowercase first 20 characters is rejected with the
similar-start reason regardless of how the remainders differ and
regardless of the texts' lengths. -/
theorem claim_C3_amended :
    (∀ text ctype recent,
      QS.validate_content text ctype [] = (true, .ok) →
      (∀ p ∈ recent, QS.lowerTrim text ≠ lowerStr p) →
      20 < pyLength (QS.lowerTrim text) →
      (∃ p ∈ recent, pyTake (QS.lowerTrim text) 20 = pyTake (lowerStr p) 20) →
      QS.validate_content text ctype recent = (false, .similarStart)) ∧
    (∀ text ctype recent, pyLength (QS.lowerTrim text) ≤ 20 →
      (QS.validate_content text ctype recent).2 ≠ .similarStart) ∧
    (∀ text history,
      Monitor.validate_reply text [] = (true, .ok) →
      (∀ p ∈ history, lowerStr text ≠ lowerStr p) →
      (∃ p ∈ history, pyTake (lowerStr text) 20 = pyTake (lowerStr p) 20) →
      Monitor.validate_reply text history = (false, .similarStart)) := by
  refine ⟨?_, ?_, ?_⟩
  · intro text ctype recent hpre hnodup hlen hmatch
    rw [validate_content_of_preChecks_none text ctype recent
      (validate_content_nil_ok text ctype hpre)]
    rw [similarCheck_fires (QS.lowerTrim text) recent hnodup hlen hmatch]
  · intro text ctype recent hlen h
    have := similarCheck_similarStart_len (QS.lowerTrim text) recent
      (validate_content_snd_similarStart text ctype recent h)
    omega
  · intro text history hpre hnodup hmatch
    rw [mvalidate_of_nil_ok text history hpre]
    rw [similarCheckM_fires text history hnodup hmatch]

/-- C3, witness: the amended statement applied to a 21-character candidate
sharing its first 20 characters with a quality_safety history entry, and to
the monitor validator on the 20-character candidate of the counterexample,
which that variant does reject. -/
theorem claim_C3_amended_witness :
    QS.validate_content "abcdefghijklmnopqrstu" "reply"
      ["abcdefghijklmnopqrstXYZ"] = (false, .similarStart) ∧
    Monitor.validate_reply "abcdefghijklmnopqrst"
      ["abcdefghijklmnopqrstuvw"] = (false, .similarStart) :=
  ⟨claim_C3_amended.1 "abcdefghijklmnopqrstu" "reply" ["abcdefghijklmnopqrstXYZ"]
    (by decide) (by decide) (by decide)
    ⟨"abcdefghijklmnopqrstXYZ", by decide, by decide⟩,
   claim_C3_amended.2.2 "abcdefghijklmnopqrst" ["abcdefghijklmnopqrstuvw"]
    (by decide) (by decide)
    ⟨"abcdefghijklmnopqrstuvw", by decide, by decide⟩⟩

/-- C4, confirmed: with the fixed 24-hour duration, the cooldown check
reports the target account on cooldown exactly when a contact record
exists and strictly less than 24 hours have elapsed; the quality_safety
check agrees with the monitor check everywhere; an account with no record
is never on cooldown; and it is on cooldown 23h59m after the last contact
but not 24h01m after. -/
theorem claim_C4_cooldown :
    (∀ accounts u now, u ≠ "" →
      (Monitor.should_skip_account accounts u now = true ↔
        ∃ last, QS.lookupAccount accounts u = some last ∧ now - last < 24 * 3600)) ∧
    (∀ accounts u now,
      (QS.can_reply_to_account accounts u now).1
        = !(Monitor.should_skip_account accounts u now)) ∧
    (∀ accounts u now, QS.lookupAccount accounts u = none →
      Monitor.should_skip_account accounts u now = false) ∧
    (∀ accounts u last now, u ≠ "" → QS.lookupAccount accounts u = some last →
      now - last = 23 * 3600 + 59 * 60 →
      Monitor.should_skip_account accounts u now = true) ∧
    (∀ accounts u last now, QS.lookupAccount accounts u = some last →
      now - last = 24 * 3600 + 60 →
      Monitor.should_skip_account accounts u now = false) := by
  refine ⟨?_, ?_, ?_, ?_, ?_⟩
  · intro accounts u now hu
    unfold Monitor.should_skip_account
    rw [if_neg hu]
    cases hl : QS.lookupAccount accounts u with
    | some last =>
      simp only [decide_eq_true_eq]
      constructor
      · intro h
        exact ⟨last, rfl, by omega⟩
      · rintro ⟨l, hl2, hlt⟩
        injection hl2 with he
        omega
    | none => simp
  · intro accounts u now
    unfold QS.can_reply_to_account Monitor.should_skip_account
    by_cases hu : u = ""
    · rw [if_pos hu, if_pos hu]
      rfl
    · rw [if_neg hu, if_neg hu]
      cases hl : QS.lookupAccount accounts u with
      | some last =>
        dsimp only
        by_cases hc : last > now - 24 * 3600
        · rw [if_pos hc]
          simp
          omega
        · rw [if_neg hc]
          simp
          omega
      | none => simp
  · intro accounts u now hl
    unfold Monitor.should_skip_account
    rw [hl]
    split <;> rfl
  · intro accounts u last now hu hl helapsed
    unfold Monitor.should_skip_account
    rw [if_neg hu, hl]
    dsimp only
    rw [decide_eq_true_eq]
    omega
  · intro accounts u last now hl helapsed
    unfold Monitor.should_skip_account
    split
    · rfl
    · rw [hl]
      dsimp only
      rw [decide_eq_false_iff_not]
      omega

/-- C4, witness: the theorem applied to a store with one record, 23h59m and
24h01m after the contact, and to an account without a record. -/
theorem claim_C4_cooldown_witness :
    Monitor.should_skip_account [("alice", 0)] "alice" 86340 = true ∧
    Monitor.should_skip_account [("alice", 0)] "alice" 86460 = false ∧
    Monitor.should_skip_account [("alice", 0)] "bob" 7 = false :=
  ⟨claim_C4_cooldown.2.2.2.1 [("alice", 0)] "alice" 0 86340 (by decide) (by decide) (by decide),
   claim_C4_cooldown.2.2.2.2 [("alice", 0)] "alice" 0 86460 (by decide) (by decide),
   claim_C4_cooldown.2.2.1 [("alice", 0)] "bob" 7 (by decide)⟩

/-- C5, confirmed: when no daily-stats record is dated today, the record
consulted by the daily-limit check is the freshly created all-zero record,
so the count read for every action kind is 0 — counters from previous days
never influence today's count. -/
theorem claim_C5_day_rollover (db : List QS.DailyStats) (today : Nat)
    (h : ∀ s ∈ db, s.date ≠ today) :
    (QS.get_today_stats db today).1 = QS.freshStats today ∧
    ∀ kind cfg current limit,
      QS.limitsEntry (QS.get_today_stats db today).1 kind cfg = some (current, limit) →
      current = 0 := by
  have hfind : db.find? (fun s => s.date = today) = none := by
    rw [List.find?_eq_none]
    intro x hx
    simp [h x hx]
  have hfst : (QS.get_today_stats db today).1 = QS.freshStats today := by
    unfold QS.get_today_stats
    rw [hfind]
  refine ⟨hfst, ?_⟩
  intro kind cfg current limit hentry
  rw [hfst] at hentry
  unfold QS.limitsEntry QS.freshStats at hentry
  split_ifs at hentry <;> simp_all

/-- C5, witness: the theorem applied to a store holding only a full counter
record from the previous day. -/
theorem claim_C5_day_rollover_witness :
    (QS.get_today_stats [⟨0, 5, 6, 7, 8, 9, 10⟩] 1).1 = QS.freshStats 1 :=
  (claim_C5_day_rollover [⟨0, 5, 6, 7, 8, 9, 10⟩] 1 (by decide)).1

theorem too_long_reject (text ctype : String) (recent : List String)
    (h : QS.maxLengthFor ctype < pyLength text) :
    QS.validate_content text ctype recent =
      (false, .tooLong (pyLength text) (QS.maxLengthFor ctype)) := by
  have hne : text ≠ "" := by
    intro he
    subst he
    have h0 : pyLength "" = 0 := rfl
    omega
  have hpc : QS.preChecks text ctype =
      some (.tooLong (pyLength text) (QS.maxLengthFor ctype)) := by
    unfold QS.preChecks
    rw [if_neg hne, if_pos h]
  unfold QS.validate_content
  rw [hpc]

/-- C7, confirmed: a text longer than the kind-specific maximum (280 for
the standalone-post and quote kinds, 240 for the reply and thread kinds)
is rejected with the too-long reason, for any history window. -/
theorem claim_C7_max_length :
    (∀ text recent, 280 < pyLength text →
      QS.validate_content text "tweet" recent = (false, .tooLong (pyLength text) 280)) ∧
    (∀ text recent, 280 < pyLength text →
      QS.validate_content text "quote" recent = (false, .tooLong (pyLength text) 280)) ∧
    (∀ text recent, 240 < pyLength text →
      QS.validate_content text "reply" recent = (false, .tooLong (pyLength text) 240)) ∧
    (∀ text recent, 240 < pyLength text →
      QS.validate_content text "thread" recent = (false, .tooLong (pyLength text) 240)) := by
  have ht : QS.maxLengthFor "tweet" = 280 := by decide
  have hq : QS.maxLengthFor "quote" = 280 := by decide
  have hr : QS.maxLengthFor "reply" = 240 := by decide
  have hh : QS.maxLengthFor "thread" = 240 := by decide
  refine ⟨?_, ?_, ?_, ?_⟩
  · intro text recent h
    have hres := too_long_reject text "tweet" recent (by rw [ht]; omega)
    rw [ht] at hres
    exact hres
  · intro text recent h
    have hres := too_long_reject text "quote" recent (by rw [hq]; omega)
    rw [hq] at hres
    exact hres
  · intro text recent h
    have hres := too_long_reject text "reply" recent (by rw [hr]; omega)
    rw [hr] at hres
    exact hres
  · intro text recent h
    have hres := too_long_reject text "thread" recent (by rw [hh]; omega)
    rw [hh] at hres
    exact hres

set_option maxRecDepth 4000 in
/-- C7, witness: a 281-character tweet and a 241-character reply are both
rejected as too long. -/
theorem claim_C7_max_length_witness :
    QS.validate_content ⟨List.replicate 281 'a'⟩ "tweet" [] =
      (false, .tooLong (pyLength ⟨List.replicate 281 'a'⟩) 280) ∧
    QS.validate_content ⟨List.replicate 241 'b'⟩ "reply" [] =
      (false, .tooLong (pyLength ⟨List.replicate 241 'b'⟩) 240) :=
  ⟨claim_C7_max_length.1 _ [] (by decide), claim_C7_max_length.2.2.1 _ [] (by decide)⟩

/-- C8, confirmed: the daily-limit check recognises only the four action
types reply / like / retweet / post; every other action type — including
"thread" and "quote", which the daily-stats model counts and `_log_action`
increments — is reported within limits with the unknown-action-type reason
no matter what today's counters hold. -/
theorem claim_C8_unknown_action_type :
    (∀ db today cfg t, t ≠ "reply" → t ≠ "like" → t ≠ "retweet" → t ≠ "post" →
      QS.check_daily_limits db today t cfg = (true, .unknownActionType)) ∧
    (∀ stats, (BrowserOp.log_action_stats_update stats "thread" true).threads_count =
      stats.threads_count + 1) ∧
    (∀ stats, (BrowserOp.log_action_stats_update stats "quote" true).quote_tweets_count =
      stats.quote_tweets_count + 1) := by
  refine ⟨?_, ?_, ?_⟩
  · intro db today cfg t h1 h2 h3 h4
    have hentry : QS.limitsEntry (QS.get_today_stats db today).1 t cfg = none := by
      unfold QS.limitsEntry
      rw [if_neg h1, if_neg h2, if_neg h3, if_neg h4]
    unfold QS.check_daily_limits
    rw [hentry]
  · intro stats
    unfold BrowserOp.log_action_stats_update
    rw [if_pos rfl, if_neg (by decide), if_neg (by decide), if_neg (by decide),
      if_neg (by decide), if_pos rfl]
  · intro stats
    unfold BrowserOp.log_action_stats_update
    rw [if_pos rfl, if_neg (by decide), if_neg (by decide), if_neg (by decide),
      if_neg (by decide), if_neg (by decide), if_pos rfl]

/-- C8, witness: a million already-logged threads never trip the daily
check for "thread". -/
theorem claim_C8_unknown_action_type_witness :
    QS.check_daily_limits [⟨0, 0, 0, 0, 0, 1000000, 0⟩] 0 "thread" ⟨70, 20, 4, 2⟩ =
      (true, .unknownActionType) :=
  claim_C8_unknown_action_type.1 [⟨0, 0, 0, 0, 0, 1000000, 0⟩] 0 ⟨70, 20, 4, 2⟩ "thread"
    (by decide) (by decide) (by decide) (by decide)

/-- C9, confirmed: a candidate whose text contains none of the relevance
keywords makes `process_tweet` return `None` with the store untouched, for
every store, random-skip draw and generation oracle — no tweet record is
stored and no generation or validation outcome can matter. -/
theorem claim_C9_irrelevant_filtered (t : Monitor.TweetC) (db : Monitor.MonitorDb)
    (now : Int) (skipRand : Bool) (gens : List (Except String String))
    (history : List String) (h : Monitor.is_relevant t.text = false) :
    Monitor.process_tweet t db now skipRand gens history = (none, db) := by
  unfold Monitor.process_tweet
  rw [if_pos (by simp [h])]

/-- C9, witness: the theorem applied to a keyword-free candidate, with a
generation oracle that would have produced a valid reply. -/
theorem claim_C9_irrelevant_filtered_witness :
    Monitor.process_tweet ⟨"1", "u", "zzz qqq", "a", "h", 0, 0, 0⟩ ⟨[], [], []⟩ 0 false
      [Except.ok "sharp view on it"] [] = (none, ⟨[], [], []⟩) :=
  claim_C9_irrelevant_filtered _ _ 0 false _ _ (by decide)

/-- C6, confirmed: when the session counter has reached the session target,
the post-action break check sleeps for a number of minutes inside
[break_min, break_max], after which the session counter is 0 and the new
target lies inside [session_min, session_max]. -/
theorem claim_C6_session_break (cfg : BrowserOp.SessionConfig)
    (sess : BrowserOp.SessionState) (breakSeed targetSeed : Nat)
    (hreach : sess.session_replies ≥ sess.session_target)
    (hb : cfg.break_min ≤ cfg.break_max) (hs : cfg.session_min ≤ cfg.session_max) :
    (∃ m, (BrowserOp.check_session_break cfg sess breakSeed targetSeed).1 = some m ∧
      cfg.break_min ≤ m ∧ m ≤ cfg.break_max) ∧
    (BrowserOp.check_session_break cfg sess breakSeed targetSeed).2.session_replies = 0 ∧
    cfg.session_min ≤
      (BrowserOp.check_session_break cfg sess breakSeed targetSeed).2.session_target ∧
    (BrowserOp.check_session_break cfg sess breakSeed targetSeed).2.session_target ≤
      cfg.session_max := by
  have hcb : BrowserOp.check_session_break cfg sess breakSeed targetSeed =
      (some (randint cfg.break_min cfg.break_max breakSeed),
       ⟨0, randint cfg.session_min cfg.session_max targetSeed⟩) := by
    unfold BrowserOp.check_session_break
    rw [if_pos hreach]
  rw [hcb]
  exact ⟨⟨randint cfg.break_min cfg.break_max breakSeed, rfl,
    (randint_mem _ _ _ hb).1, (randint_mem _ _ _ hb).2⟩, rfl,
    (randint_mem _ _ _ hs).1, (randint_mem _ _ _ hs).2⟩

/-- C6, witness: the theorem at the default configuration (sessions of 3-7
actions, breaks of 5-25 minutes) with the counter at its target. -/
theorem claim_C6_session_break_witness :
    (∃ m, (BrowserOp.check_session_break ⟨3, 7, 5, 25⟩ ⟨3, 3⟩ 0 9).1 = some m ∧
      5 ≤ m ∧ m ≤ 25) ∧
    (BrowserOp.check_session_break ⟨3, 7, 5, 25⟩ ⟨3, 3⟩ 0 9).2.session_replies = 0 ∧
    3 ≤ (BrowserOp.check_session_break ⟨3, 7, 5, 25⟩ ⟨3, 3⟩ 0 9).2.session_target ∧
    (BrowserOp.check_session_break ⟨3, 7, 5, 25⟩ ⟨3, 3⟩ 0 9).2.session_target ≤ 7 :=
  claim_C6_session_break ⟨3, 7, 5, 25⟩ ⟨3, 3⟩ 0 9 (by decide) (by decide) (by decide)

/-- C10: the committed value of the daily-counter update is computed in
application code between a separate read and write, so the interleaving
read-read-write-write of two processes each recording one reply loses one
update (the final count is 1, not 2), whereas the storage-layer atomic
increment the claim describes would always yield 2. -/
theorem claim_C10_lost_update :
    (Concurrency.runSchedule ⟨0, none, none⟩
      [.read1, .read2, .write1, .write2]).store = 1 ∧
    Concurrency.atomic_increment (Concurrency.atomic_increment 0) = 2 := by
  refine ⟨by decide, by decide⟩
